import Mathlib

/- Verification development for the deephedging core: a shallow embedding of
   the feature network (layers.py: VariableLayer, DenseLayer) and of the
   monetary utility objective (objectives.py: MonetaryUtility, utility),
   together with theorems settling the specification claims.

   Tensors are modelled over exact reals: a rank-1 tensor is a List of reals,
   , a rank-2 tensor a List of rows.  Python dictionaries are association
   lists with first-binding-wins lookup.  Fallible code returns Except. -/

namespace DeepHedging

/-- Association-list lookup modelling a Python dict access; the first binding
wins (Python dict keys are unique, so this is faithful). -/
def lookupA {α : Type} (k : String) : List (String × α) → Option α
  | [] => none
  | (k2, v) :: rest => if k2 = k then some v else lookupA k rest

/-- Normalisation of the requested features performed by DenseLayer.__init__
(layers.py lines 73-74): sorted(set(features)) when features are given, then
replaced by None when the resulting list is empty. -/
def sortedFeatures (features : Option (List String)) : Option (List String) :=
  match features with
  | none => none
  | some fs =>
    let sortedList := fs.dedup.mergeSort (fun a b => a ≤ b)
    if sortedList.length > 0 then some sortedList else none

/-- Seed of the variable created by the zero-feature branch of
DenseLayer.build (layers.py line 112): the stored initial_value when present,
otherwise the glorot random initializer at shape (nOutput,). -/
inductive VarInit
  | fromValue (v : List ℝ)
  | glorot (nOutput : Nat)

/-- Unit counts of the dense transformations created by the with-features
branch of DenseLayer.build, in order (layers.py lines 115-127): one
Dense(width), then depth - 1 further Dense(width) from the for-loop, then the
final Dense(nOutput). -/
def builtLayerUnits (width depth nOutput : Nat) : List Nat :=
  [width] ++ (List.range (depth - 1)).map (fun _ => width) ++ [nOutput]

/-- Result of DenseLayer.build: either the trainable variable of the
zero-feature case, or the feed-forward architecture with its input width. -/
inductive BuiltModel
  | variableM (init : VarInit)
  | networkM (units : List Nat) (nFeatures : Nat)

/-- Static configuration of a DenseLayer after __init__ (layers.py 48-86):
nOutput, the network hyperparameters, the normalised feature list (None when
empty, see sortedFeatures) and the optional initial value (already checked
against nOutput by __init__). -/
structure DLConfig where
  nOutput : Nat
  width : Nat
  depth : Nat
  zero_model : Bool
  features : Option (List String)
  initial_value : Option (List ℝ)

/-- Feature-width collection loop of DenseLayer.build (layers.py 96-103):
each requested feature must be present in the shapes mapping, must be
two-dimensional, and the widths (second shape entry) are summed. -/
def featureWidthAux (shapes : List (String × List Nat)) : List String → Nat → Except String Nat
  | [], acc => .ok acc
  | f :: fs, acc =>
    match lookupA f shapes with
    | none => .error ("Unknown feature " ++ f)
    | some sh =>
      if sh.length = 2 then featureWidthAux shapes fs (acc + sh.getD 1 0)
      else .error ("Internal error: all features should have been flattened")

/-- Total feature width computed by DenseLayer.build: zero when no features
are requested (self.features is None), otherwise the summed widths. -/
def featureWidthE (features : Option (List String)) (shapes : List (String × List Nat)) : Except String Nat :=
  match features with
  | none => .ok 0
  | some fs => featureWidthAux shapes fs 0

/-- Initializer chosen by the zero-feature branch of build (layers.py 112):
shape (nOutput,) glorot unless an initial_value was stored. -/
def varInitOf (cfg : DLConfig) : VarInit :=
  match cfg.initial_value with
  | some v => VarInit.fromValue v
  | none => VarInit.glorot cfg.nOutput

/-- DenseLayer.build (layers.py 88-141).  Collects the feature widths; when
the total is zero it creates the trainable VariableLayer, otherwise it builds
the feed-forward network.  The NotImplementedError guard for zero_model sits
inside the with-features branch only (lines 132-133), after the network is
assembled; in the Except model the raise makes build fail there. -/
def DenseLayer.build (cfg : DLConfig) (shapes : List (String × List Nat)) : Except String BuiltModel :=
  match featureWidthE cfg.features shapes with
  | .error e => .error e
  | .ok nF =>
    if nF = 0 then .ok (BuiltModel.variableM (varInitOf cfg))
    else if cfg.zero_model then .error ("NotImplementedError: zero_model")
    else .ok (BuiltModel.networkM (builtLayerUnits cfg.width cfg.depth cfg.nOutput) nF)

/-- C2 counterexample: the claim says depth = 1 yields a single dense
transformation mapping the concatenated input directly to output_width units.
On the code, a DenseLayer with one width-3 feature, width 20, depth 1 and
nOutput 7 builds the unit sequence [20, 7]: two dense transformations, with a
width-20 hidden layer before the output layer. -/
theorem C2_counterexample :
    DenseLayer.build ⟨7, 20, 1, false, some ["x"], none⟩ [("x", [10, 3])]
      = Except.ok (BuiltModel.networkM [20, 7] 3)
    ∧ builtLayerUnits 20 1 7 = [20, 7]
    ∧ (builtLayerUnits 20 1 7).length ≠ 1 :=
  ⟨rfl, rfl, by decide⟩

/-- C2 amended: for depth ≥ 1 the built network contains depth + 1 dense
transformations in total: depth hidden layers of the configured width (the
first is always present, the for-loop adds depth - 1 more) followed by one
output layer of nOutput units. -/
theorem C2_amended (width depth nOutput : Nat) (h : 1 ≤ depth) :
    (builtLayerUnits width depth nOutput).length = depth + 1
    ∧ builtLayerUnits width depth nOutput = List.replicate depth width ++ [nOutput] := by
  cases depth with
  | zero => omega
  | succ k =>
    constructor
    · simp [builtLayerUnits]
    · simp [builtLayerUnits, List.replicate_succ]

/-- C2 witness: the amended statement evaluated at width 20, depth 3,
nOutput 7. -/
theorem C2_witness :
    1 ≤ 3
    ∧ (builtLayerUnits 20 3 7).length = 3 + 1
    ∧ builtLayerUnits 20 3 7 = List.replicate 3 20 ++ [7] :=
  ⟨by decide, C2_amended 20 3 7 (by decide)⟩

/-- C3 counterexample: the claim says a DenseLayer with zero_model = true
fails to build for every input, in the zero-feature case as well.  On the
code the zero-feature branch never consults zero_model: building with no
features and zero_model set succeeds and returns the variable model. -/
theorem C3_counterexample :
    DenseLayer.build ⟨1, 20, 3, true, none, none⟩ []
      = Except.ok (BuiltModel.variableM (VarInit.glorot 1)) :=
  rfl

/-- C3 amended: with zero_model set, build faults with NotImplementedError
exactly in the with-features case (total feature width positive); in the
zero-feature case zero_model is silently ignored and build succeeds with the
variable model. -/
theorem C3_amended (cfg : DLConfig) (shapes : List (String × List Nat)) (n : Nat)
    (hz : cfg.zero_model = true) :
    (featureWidthE cfg.features shapes = Except.ok n → 0 < n →
        DenseLayer.build cfg shapes = Except.error ("NotImplementedError: zero_model"))
    ∧ (featureWidthE cfg.features shapes = Except.ok 0 →
        DenseLayer.build cfg shapes = Except.ok (BuiltModel.variableM (varInitOf cfg))) := by
  constructor
  · intro hw hn
    simp only [DenseLayer.build, hw]
    rw [if_neg (by omega), if_pos hz]
  · intro hw
    simp [DenseLayer.build, hw]

/-- C3 witness: the amended statement evaluated at a config with one width-2
feature and zero_model set; the feature width is 2 > 0 and build faults. -/
theorem C3_witness :
    (⟨1, 20, 3, true, some ["x"], none⟩ : DLConfig).zero_model = true
    ∧ featureWidthE (some ["x"]) [("x", [5, 2])] = Except.ok 2
    ∧ 0 < 2
    ∧ DenseLayer.build ⟨1, 20, 3, true, some ["x"], none⟩ [("x", [5, 2])]
        = Except.error ("NotImplementedError: zero_model") :=
  ⟨rfl, rfl, by decide,
    (C3_amended ⟨1, 20, 3, true, some ["x"], none⟩ [("x", [5, 2])] 2 rfl).1 rfl (by decide)⟩

/-- Rank-1 or rank-2 tensor over exact reals. -/
inductive Tensor
  | r1 (v : List ℝ)
  | r2 (m : List (List ℝ))

/-- Shape of a tensor: [length] for rank 1 and [rows, width of the first
row] for rank 2 (model tensors are rectangular, so the first row is
representative). -/
def Tensor.shape : Tensor → List Nat
  | .r1 v => [v.length]
  | .r2 m => [m.length, (m.head?.getD []).length]

/-- Keras activation by name as used by the built network: relu is max(0, x)
and linear is the identity.  Other activation names play no role in the
claims and are modelled as the identity as well. -/
noncomputable def applyActivation (name : String) (x : ℝ) : ℝ :=
  if name = "relu" then max 0 x else x

/-- Weights of one Keras Dense layer: one kernel row per output unit, one
bias per output unit, and the activation name. -/
structure DenseWeights where
  kernel : List (List ℝ)
  bias : List ℝ
  activation : String

/-- Dot product of two equal-length real lists. -/
noncomputable def dotR (xs ys : List ℝ) : ℝ :=
  (List.zipWith (fun a b => a * b) xs ys).sum

/-- One Dense layer applied to a single sample row. -/
noncomputable def denseRow (dw : DenseWeights) (row : List ℝ) : List ℝ :=
  List.zipWith (fun wrow b => applyActivation dw.activation (dotR wrow row + b)) dw.kernel dw.bias

/-- One Dense layer applied to a batch (rank-2 input, sample axis first). -/
noncomputable def denseForward (dw : DenseWeights) (t : List (List ℝ)) : List (List ℝ) :=
  t.map (denseRow dw)

/-- The feed-forward stack built by DenseLayer.build, applied to a batch: the
layers are applied in order. -/
noncomputable def networkForward (layers : List DenseWeights) (t : List (List ℝ)) : List (List ℝ) :=
  layers.foldl (fun acc dw => denseForward dw acc) t

/-- Callable state of a built DenseLayer: the realized variable values of the
zero-feature case, or the realized weights of the feed-forward network. -/
inductive CallableModel
  | variableC (v : List ℝ)
  | networkC (layers : List DenseWeights)

/-- Built DenseLayer as seen by call (layers.py 143-172): the normalised
feature list, the feature width and output width fixed by build, and the
realized model. -/
structure BuiltDense where
  features : Option (List String)
  nFeatures : Nat
  nOutput : Nat
  model : CallableModel

/-- List comprehension of DenseLayer.call line 169: collect data[f] for each
requested feature in order, failing with a KeyError at the first missing
feature. -/
def collectFeatures (data : List (String × List (List ℝ))) : List String → Except String (List (List (List ℝ)))
  | [] => .ok []
  | f :: fs =>
    match lookupA f data with
    | none => .error ("KeyError: " ++ f)
    | some m =>
      match collectFeatures data fs with
      | .error e => .error e
      | .ok ms => .ok (m :: ms)

/-- Concatenation of rank-2 tensors along axis 1 (tf.concat of call line
170): samplewise concatenation of the rows. -/
def concatRows : List (List (List ℝ)) → List (List ℝ)
  | [] => []
  | [m] => m
  | m :: ms => List.zipWith (fun xs ys => xs ++ ys) m (concatRows ms)

/-- Width (second shape entry) of a rank-2 tensor, read off its first row. -/
def rowWidth (m : List (List ℝ)) : Nat := (m.head?.getD []).length

/-- Check that every tensor in a list has exactly b rows. -/
def allRowsEq (mats : List (List (List ℝ))) (b : Nat) : Bool :=
  mats.all (fun m => m.length == b)

/-- DenseLayer.call (layers.py 143-172).  When the feature width is zero the
data is ignored and the variable model is returned as is (VariableLayer.call,
layers.py 38-40, returns self.variable unchanged).  Otherwise the requested
features are extracted in the stored (sorted) order, concatenated along the
feature axis, the width is asserted against nFeatures, and the network is
evaluated.  States unreachable from build are internal errors. -/
noncomputable def DenseLayer.call (L : BuiltDense) (data : List (String × List (List ℝ))) : Except String Tensor :=
  if L.nFeatures = 0 then
    match L.model with
    | .variableC v => .ok (.r1 v)
    | .networkC _ => .error ("Internal error: network model invoked without features")
  else
    match L.features with
    | none => .error ("Internal error: positive feature width without features")
    | some fs =>
      match collectFeatures data fs with
      | .error e => .error e
      | .ok mats =>
        let feats := concatRows mats
        if L.nFeatures = rowWidth feats then
          match L.model with
          | .networkC layers => .ok (.r2 (networkForward layers feats))
          | .variableC _ => .error ("Internal error: variable model invoked with features")
        else .error ("Config error: number of features should match up")

lemma collectFeatures_congr (d1 d2 : List (String × List (List ℝ))) (fs : List String)
    (h : fs.map (fun f => lookupA f d1) = fs.map (fun f => lookupA f d2)) :
    collectFeatures d1 fs = collectFeatures d2 fs := by
  induction fs with
  | nil => rfl
  | cons f rest ih =>
    simp only [List.map_cons, List.cons.injEq] at h
    obtain ⟨h1, h2⟩ := h
    simp only [collectFeatures, h1, ih h2]

/-- C8: the invocation output of a built DenseLayer depends on the feature
map only through the bindings of the requested features, which are read in
the stored deduplicated sorted order; two maps with equal bindings for every
requested feature (in particular, maps equal as mappings up to key order and
extra keys) yield identical results. -/
theorem C8_order_invariance (L : BuiltDense) (fs : List String)
    (d1 d2 : List (String × List (List ℝ)))
    (hf : L.features = some fs)
    (h : fs.map (fun f => lookupA f d1) = fs.map (fun f => lookupA f d2)) :
    DenseLayer.call L d1 = DenseLayer.call L d2 := by
  have hc : collectFeatures d1 fs = collectFeatures d2 fs :=
    collectFeatures_congr d1 d2 fs h
  by_cases h0 : L.nFeatures = 0
  · simp [DenseLayer.call, h0]
  · simp [DenseLayer.call, h0, hf, hc]

/-- Example built layer for the C8 witness: two requested features of width
one each, feeding a single linear dense layer. -/
noncomputable def exampleLayer : BuiltDense :=
  ⟨some ["a", "b"], 2, 1, CallableModel.networkC [⟨[[1, 2]], [0], "linear"⟩]⟩

/-- Feature map for the C8 witness. -/
noncomputable def exampleDataA : List (String × List (List ℝ)) :=
  [("a", [[1], [2]]), ("b", [[3], [4]])]

/-- The same mapping as exampleDataA with permuted key order and one extra
key. -/
noncomputable def exampleDataB : List (String × List (List ℝ)) :=
  [("b", [[3], [4]]), ("c", [[9], [9]]), ("a", [[1], [2]])]

/-- C8 witness: the order-invariance theorem applied to two concrete feature
maps that agree on the requested features but differ in key order and extra
keys. -/
theorem C8_witness :
    exampleLayer.features = some ["a", "b"]
    ∧ ["a", "b"].map (fun f => lookupA f exampleDataA)
        = ["a", "b"].map (fun f => lookupA f exampleDataB)
    ∧ DenseLayer.call exampleLayer exampleDataA = DenseLayer.call exampleLayer exampleDataB :=
  ⟨rfl, rfl, C8_order_invariance exampleLayer ["a", "b"] exampleDataA exampleDataB rfl rfl⟩

/-- Zero-feature built layer (pure trainable parameter) with output width
one, for the C9 counterexample. -/
noncomputable def zeroFeatureLayer : BuiltDense :=
  ⟨none, 0, 1, CallableModel.variableC [0]⟩

/-- C9 counterexample: the claim says invocation always returns a tensor of
shape (batch, output_width), the zero-feature constant being broadcast over
the batch.  On the code, invoking a zero-feature layer on a batch of two
samples returns the stored rank-1 variable unchanged, of shape [1], not
[2, 1]: no batch axis is added. -/
theorem C9_counterexample :
    (DenseLayer.call zeroFeatureLayer [("a", [[1], [2]])]).map Tensor.shape = Except.ok [1]
    ∧ [1] ≠ [2, 1] :=
  ⟨rfl, by decide⟩

lemma denseForward_length (dw : DenseWeights) (t : List (List ℝ)) :
    (denseForward dw t).length = t.length := by
  simp [denseForward]

lemma networkForward_cons (dw : DenseWeights) (ls : List DenseWeights) (t : List (List ℝ)) :
    networkForward (dw :: ls) t = networkForward ls (denseForward dw t) := rfl

lemma networkForward_length (layers : List DenseWeights) (t : List (List ℝ)) :
    (networkForward layers t).length = t.length := by
  induction layers generalizing t with
  | nil => rfl
  | cons dw ls ih => rw [networkForward_cons, ih, denseForward_length]

lemma networkForward_append_last (ls : List DenseWeights) (lastL : DenseWeights) (t : List (List ℝ)) :
    networkForward (ls ++ [lastL]) t = denseForward lastL (networkForward ls t) := by
  simp [networkForward, List.foldl_append]

lemma denseRow_length (dw : DenseWeights) (row : List ℝ) :
    (denseRow dw row).length = min dw.kernel.length dw.bias.length := by
  simp [denseRow]

lemma concatRows_length (mats : List (List (List ℝ))) (b : Nat)
    (hne : mats ≠ []) (h : allRowsEq mats b = true) :
    (concatRows mats).length = b := by
  induction mats with
  | nil => exact absurd rfl hne
  | cons m ms ih =>
    cases ms with
    | nil =>
      simp [allRowsEq] at h
      simpa [concatRows] using h
    | cons m2 ms2 =>
      simp only [allRowsEq, List.all_cons, Bool.and_eq_true, beq_iff_eq] at h
      have htail : (concatRows (m2 :: ms2)).length = b := by
        apply ih (by simp)
        simp only [allRowsEq, List.all_cons, Bool.and_eq_true, beq_iff_eq]
        exact ⟨h.2.1, h.2.2⟩
      simp only [concatRows, List.length_zipWith, h.1, htail, Nat.min_self]

/-- C9 amended: in the zero-feature case invocation returns the stored
rank-1 constant unchanged, of shape [output_width] with no batch axis (any
broadcasting over the batch is left to downstream arithmetic); in the
with-features case invocation returns a rank-2 tensor of shape
(batch, output_width). -/
theorem C9_amended (L : BuiltDense) (v : List ℝ)
    (fs : List String) (ls : List DenseWeights) (lastL : DenseWeights)
    (data : List (String × List (List ℝ))) (mats : List (List (List ℝ))) (b : Nat) :
    (L.nFeatures = 0 → L.model = CallableModel.variableC v → v.length = L.nOutput →
        DenseLayer.call L data = Except.ok (Tensor.r1 v)
        ∧ (Tensor.r1 v).shape = [L.nOutput])
    ∧ (L.nFeatures ≠ 0 → L.features = some fs →
        L.model = CallableModel.networkC (ls ++ [lastL]) →
        lastL.kernel.length = L.nOutput → lastL.bias.length = L.nOutput →
        collectFeatures data fs = Except.ok mats → mats ≠ [] →
        allRowsEq mats b = true → 0 < b →
        rowWidth (concatRows mats) = L.nFeatures →
        (DenseLayer.call L data).map Tensor.shape = Except.ok [b, L.nOutput]) := by
  constructor
  · intro h0 hm hv
    constructor
    · simp [DenseLayer.call, h0, hm]
    · simp [Tensor.shape, hv]
  · intro h0 hf hm hk hb hc hne hrows hpos hw
    simp only [DenseLayer.call, hf, hc, hm]
    rw [if_neg h0, if_pos hw.symm]
    have hlen : (networkForward (ls ++ [lastL]) (concatRows mats)).length = b := by
      rw [networkForward_length]
      exact concatRows_length mats b hne hrows
    rw [networkForward_append_last]
    have hplen : (networkForward ls (concatRows mats)).length = b := by
      rw [networkForward_length]
      exact concatRows_length mats b hne hrows
    obtain ⟨p, rest, hp⟩ :
        ∃ p rest, networkForward ls (concatRows mats) = p :: rest := by
      cases hq : networkForward ls (concatRows mats) with
      | nil =>
        rw [hq] at hplen
        simp at hplen
        omega
      | cons p rest => exact ⟨p, rest, rfl⟩
    have hrlen : (denseRow lastL p).length = L.nOutput := by
      rw [denseRow_length, hk, hb, Nat.min_self]
    have hrest : rest.length + 1 = b := by
      rw [hp] at hplen
      simpa using hplen
    rw [hp]
    simp only [Except.map, denseForward, List.map_cons, Tensor.shape, List.head?_cons,
      Option.getD_some, List.length_cons, List.length_map, hrlen, hrest]

/-- Built layer with one width-2 feature and a single linear output layer,
for the C9 witness. -/
noncomputable def exampleLayer9 : BuiltDense :=
  ⟨some ["a"], 2, 1, CallableModel.networkC [⟨[[1, 2]], [5], "linear"⟩]⟩

/-- Feature map for the C9 witness: one feature of width 2 over a batch of
two samples. -/
noncomputable def exampleData9 : List (String × List (List ℝ)) :=
  [("a", [[1, 2], [3, 4]])]

/-- C9 witness: the amended statement applied to a concrete with-features
layer over a batch of two samples, yielding output shape [2, 1]. -/
theorem C9_witness :
    exampleLayer9.nFeatures ≠ 0
    ∧ exampleLayer9.features = some ["a"]
    ∧ exampleLayer9.model = CallableModel.networkC ([] ++ [⟨[[1, 2]], [5], "linear"⟩])
    ∧ collectFeatures exampleData9 ["a"] = Except.ok [[[1, 2], [3, 4]]]
    ∧ allRowsEq [[[1, 2], [3, 4]]] 2 = true
    ∧ rowWidth (concatRows [[[1, 2], [3, 4]]]) = exampleLayer9.nFeatures
    ∧ (DenseLayer.call exampleLayer9 exampleData9).map Tensor.shape = Except.ok [2, 1] :=
  ⟨by decide, rfl, rfl, rfl, rfl, rfl,
    (C9_amended exampleLayer9 [] ["a"] [] ⟨[[1, 2]], [5], "linear"⟩ exampleData9
        [[[1, 2], [3, 4]]] 2).2
      (by decide) rfl rfl rfl rfl rfl (List.cons_ne_nil _ _) rfl (by decide) rfl⟩

/-- Minimum of a batch, modelling tf.reduce_min over a non-empty tensor; the
empty batch is irrelevant to the claims and defaults to 0. -/
noncomputable def listMin : List ℝ → ℝ
  | [] => 0
  | x :: xs => xs.foldl (fun a b => min a b) x

/-- Result record of the utility dispatcher, with members u and d
(objectives.py 224-227). -/
structure UD where
  u : List ℝ
  d : List ℝ

/-- Per-sample cvar utility (objectives.py 178): (1+λ)·min(0, gains) - y. -/
noncomputable def cvarU (lmbda y g : ℝ) : ℝ := (1 + lmbda) * min 0 g - y

/-- Per-sample cvar derivative (objectives.py 179): -(1+λ) where gains < 0,
else 0. -/
noncomputable def cvarD (lmbda g : ℝ) : ℝ := if g < 0 then -(1 + lmbda) else 0

/-- Per-sample quad utility (objectives.py 185-186), with x0 = 1/λ:
where(gains < x0, -0.5·λ·(gains-x0)², 0) + 0.5·x0² - y. -/
noncomputable def quadU (lmbda y g : ℝ) : ℝ :=
  (if g < 1 / lmbda then -(0.5 * lmbda * (g - 1 / lmbda) ^ 2) else 0) + 0.5 * (1 / lmbda) ^ 2 - y

/-- Value of the quad utility branch taken when gains < x0. -/
noncomputable def quadUBelow (lmbda y g : ℝ) : ℝ :=
  -(0.5 * lmbda * (g - 1 / lmbda) ^ 2) + 0.5 * (1 / lmbda) ^ 2 - y

/-- Value of the quad utility branch taken when gains ≥ x0. -/
noncomputable def quadUAbove (lmbda y : ℝ) : ℝ := 0 + 0.5 * (1 / lmbda) ^ 2 - y

/-- Per-sample quad derivative (objectives.py 187). -/
noncomputable def quadD (lmbda g : ℝ) : ℝ := if g < 1 / lmbda then -(lmbda * (g - 1 / lmbda)) else 0

/-- Per-sample robust entropic utility (objectives.py 194), with m the
gradient-detached batch minimum: (1 - exp(-λ·(gains-m)))/λ - y + m. -/
noncomputable def expU (lmbda y m g : ℝ) : ℝ :=
  (1 - Real.exp (-(lmbda * (g - m)))) / lmbda - y + m

/-- Per-sample entropic derivative as reported (objectives.py 195):
exp(-λ·gains). -/
noncomputable def expD (lmbda g : ℝ) : ℝ := Real.exp (-(lmbda * g))

/-- Positive-axis branch of the exp2 utility (objectives.py 204). -/
noncomputable def exp2U1 (lmbda y g : ℝ) : ℝ := (1 - Real.exp (-(lmbda * g))) / lmbda - y

/-- Negative-axis branch of the exp2 utility (objectives.py 205). -/
noncomputable def exp2U2 (lmbda y g : ℝ) : ℝ := g - 0.5 * lmbda * g * g - y

/-- Positive-axis branch of the exp2 derivative (objectives.py 206). -/
noncomputable def exp2D1 (lmbda g : ℝ) : ℝ := Real.exp (-(lmbda * g))

/-- Negative-axis branch of the exp2 derivative (objectives.py 207). -/
noncomputable def exp2D2 (lmbda g : ℝ) : ℝ := 1 - lmbda * g

/-- Per-sample vicky utility (objectives.py 216). -/
noncomputable def vickyU (lmbda y g : ℝ) : ℝ :=
  (1 + lmbda * g - Real.sqrt (1 + (lmbda * g) ^ 2)) / lmbda - y

/-- Per-sample vicky derivative (objectives.py 217). -/
noncomputable def vickyD (lmbda g : ℝ) : ℝ :=
  1 - lmbda * g / Real.sqrt (1 + (lmbda * g) ^ 2)

/-- Plain entropic utility exactly as the specification words it for claim
C1: u = (1 - exp(-λ·gains))/λ - y.  This definition follows the words of the
spec, for comparison with the robust form the source computes. -/
noncomputable def plainEntropicU (lmbda y g : ℝ) : ℝ :=
  (1 - Real.exp (-(lmbda * g))) / lmbda - y

/-- The utility dispatcher (objectives.py 132-227).  It computes
gains = X + y, faults on negative λ, replaces the requested family by mean
with λ = 1 whenever λ < 1e-12, then dispatches through the elif chain in
source order (mean/expectation, cvar, quad, exp/entropy, exp2, vicky) and
faults on an unknown name.  The check_numerics guards are identities over
exact reals. -/
noncomputable def utility (uname : String) (lmbda : ℝ) (X : List ℝ) (y : ℝ) : Except String UD :=
  let gains := X.map (fun x => x + y)
  if lmbda < 0 then .error ("Risk aversion lmbda cannot be negative")
  else
    let uname2 := if lmbda < 1e-12 then "mean" else uname
    let lmbda2 := if lmbda < 1e-12 then 1 else lmbda
    if uname2 ∈ (["mean", "expectation"] : List String) then
      .ok ⟨gains, gains.map (fun _ => 1)⟩
    else if uname2 = "cvar" then
      .ok ⟨gains.map (fun g => cvarU lmbda2 y g), gains.map (fun g => cvarD lmbda2 g)⟩
    else if uname2 = "quad" then
      .ok ⟨gains.map (fun g => quadU lmbda2 y g), gains.map (fun g => quadD lmbda2 g)⟩
    else if uname2 ∈ (["exp", "entropy"] : List String) then
      .ok ⟨gains.map (fun g => expU lmbda2 y (listMin gains) g),
           gains.map (fun g => expD lmbda2 g)⟩
    else if uname2 = "exp2" then
      .ok ⟨gains.map (fun g => if g > 0 then exp2U1 lmbda2 y g else exp2U2 lmbda2 y g),
           gains.map (fun g => if g > 0 then exp2D1 lmbda2 g else exp2D2 lmbda2 g)⟩
    else if uname2 = "vicky" then
      .ok ⟨gains.map (fun g => vickyU lmbda2 y g), gains.map (fun g => vickyD lmbda2 g)⟩
    else .error ("Unknown utility function " ++ uname2)

/-- Enumerated utility families accepted by the MonetaryUtility
configuration (objectives.py 57). -/
def allowedUtilities : List String := ["mean", "exp", "exp2", "vicky", "cvar", "quad"]

/-- Validated hyperparameters of a constructed MonetaryUtility. -/
structure MUParams where
  utility : String
  lmbda : ℝ

/-- Fault behavior of MonetaryUtility.__init__ (objectives.py 40-69): the
utility name is read against the enumerated list (fault otherwise), then
lmbda is read and verified strictly positive, for every family including
mean.  The creation of the y sub-layer cannot fault for a validated
configuration and is omitted here. -/
noncomputable def MonetaryUtility.init (uname : String) (lmbda : ℝ) : Except String MUParams :=
  if uname ∈ allowedUtilities then
    if lmbda > 0 then .ok ⟨uname, lmbda⟩
    else .error ("lmnda must be positive. Use utility mean for zero lambda")
  else .error ("Unknown utility " ++ uname)

/-- State of a MonetaryUtility as seen by compute: the validated family and
risk aversion, and the y sub-layer as a callable from a feature map to the
per-path intercept (VariableLayer or DenseLayer, whose current parameters
are runtime state). -/
structure MonetaryUtilityT where
  utility : String
  lmbda : ℝ
  y : List (String × List (List ℝ)) → Except String ℝ

/-- Body of MonetaryUtility.compute after the mapping check (objectives.py
128-130): obtain y from the sub-layer (check_numerics is an identity over
exact reals) and dispatch to the utility formula. -/
noncomputable def computeBody (mu : MonetaryUtilityT) (X : List ℝ)
    (ft : List (String × List (List ℝ))) : Except String UD :=
  match mu.y ft with
  | .error e => .error e
  | .ok yv => utility mu.utility mu.lmbda X yv

/-- MonetaryUtility.compute (objectives.py 105-130).  The argument
features_time_0 defaults to None, modelled as an Option: line 126 verifies
it is a Mapping (None fails), and only then does line 127 substitute the
empty dict for None, modelled by getD. -/
noncomputable def MonetaryUtility.compute (mu : MonetaryUtilityT) (X : List ℝ)
    (ft0 : Option (List (String × List (List ℝ)))) : Except String UD :=
  if ft0.isSome then computeBody mu X (ft0.getD [])
  else .error ("features_time_0 must be a dictionary type")

/-- Variant of compute without the None-to-empty-dict fallback of line 127:
the mapping extracted directly from the checked Option. -/
noncomputable def MonetaryUtility.computeNoFallback (mu : MonetaryUtilityT) (X : List ℝ)
    (ft0 : Option (List (String × List (List ℝ)))) : Except String UD :=
  match ft0 with
  | none => .error ("features_time_0 must be a dictionary type")
  | some ft => computeBody mu X ft

/-- C1 counterexample: the claim says the robust entropic form is
mathematically equal to the plain form for every λ > 0, y and non-empty
batch.  On the batch X = [1] with λ = 1 and y = 0 the code computes u = [1]
(the batch minimum m equals the sample, so the exponential vanishes at 0),
while the plain entropic form gives 1 - exp(-1) ≠ 1. -/
theorem C1_counterexample :
    utility "exp" 1 [1] 0 = Except.ok ⟨[1], [expD 1 1]⟩
    ∧ plainEntropicU 1 0 1 ≠ 1 := by
  constructor
  · have hpos : ¬ ((1 : ℝ) < 0) := by norm_num
    have hnl : ¬ ((1 : ℝ) < 1e-12) := by norm_num
    simp only [utility, if_neg hpos, if_neg hnl]
    rw [if_neg (by decide), if_neg (by decide), if_neg (by decide), if_pos (by decide)]
    have hg : (1 : ℝ) + 0 = 1 := by norm_num
    simp only [List.map_cons, List.map_nil, hg, listMin, List.foldl_nil]
    have hu : expU 1 0 1 1 = 1 := by
      simp [expU, Real.exp_zero]
    rw [hu]
  · simp only [plainEntropicU, ne_eq, mul_one, div_one, sub_zero]
    intro hcontra
    have hexp : Real.exp (-1) = 0 := by linarith
    exact (Real.exp_pos (-1)).ne' hexp

/-- C1 amended: the robust form is the plain entropic form evaluated at
gains - m, plus m, where m is the detached batch minimum; it coincides with
the plain entropic form (and the reported d = exp(-λ·gains) with the
derivative of the computed u) exactly when the batch minimum is 0, not for
every batch. -/
theorem C1_amended (lmbda y m g : ℝ) (X : List ℝ)
    (h1 : 1e-12 ≤ lmbda) (hm : listMin (X.map (fun x => x + y)) = 0) :
    expU lmbda y m g = plainEntropicU lmbda y (g - m) + m
    ∧ utility "exp" lmbda X y
        = Except.ok ⟨(X.map (fun x => x + y)).map (fun g2 => plainEntropicU lmbda y g2),
                     (X.map (fun x => x + y)).map (fun g2 => expD lmbda g2)⟩ := by
  constructor
  · unfold expU plainEntropicU
    ring
  · have hpos : ¬ (lmbda < 0) := not_lt.mpr (le_trans (by norm_num) h1)
    have hnl : ¬ (lmbda < 1e-12) := not_lt.mpr h1
    simp only [utility, if_neg hpos, if_neg hnl]
    rw [if_neg (by decide), if_neg (by decide), if_neg (by decide), if_pos (by decide)]
    rw [hm]
    simp only [Except.ok.injEq, UD.mk.injEq]
    refine ⟨?_, trivial⟩
    apply List.map_congr_left
    intro a _
    simp [expU, plainEntropicU]

/-- C1 witness: the amended statement at λ = 1, y = 0, batch X = [0], whose
minimum is 0. -/
theorem C1_witness :
    (1e-12 : ℝ) ≤ 1 ∧ listMin ([0].map (fun x => x + 0)) = 0
    ∧ (expU 1 0 0 0 = plainEntropicU 1 0 (0 - 0) + 0
       ∧ utility "exp" 1 [0] 0
           = Except.ok ⟨([0].map (fun x => x + 0)).map (fun g2 => plainEntropicU 1 0 g2),
                        ([0].map (fun x => x + 0)).map (fun g2 => expD 1 g2)⟩) :=
  ⟨by norm_num, by norm_num [listMin], C1_amended 1 0 0 0 [0] (by norm_num) (by norm_num [listMin])⟩

/-- C4 counterexample: the claim says risk_aversion = 0 is accepted at
construction when the family is mean.  On the code the verify of lmbda > 0
runs for every family, so mean with lmbda = 0 faults at construction. -/
theorem C4_counterexample :
    MonetaryUtility.init "mean" 0
      = Except.error ("lmnda must be positive. Use utility mean for zero lambda") := by
  unfold MonetaryUtility.init
  rw [if_pos (by decide), if_neg (by norm_num)]

/-- C4 amended: for every enumerated family, construction succeeds exactly
when risk_aversion is strictly positive; zero (and below) always faults,
mean included.  The λ below the threshold falls back to mean only inside the
runtime dispatcher, not at construction. -/
theorem C4_amended (uname : String) (lmbda : ℝ) (h : uname ∈ allowedUtilities) :
    MonetaryUtility.init uname lmbda = Except.ok ⟨uname, lmbda⟩ ↔ 0 < lmbda := by
  unfold MonetaryUtility.init
  rw [if_pos h]
  constructor
  · intro he
    by_contra hn
    rw [if_neg hn] at he
    simp at he
  · intro hl
    rw [if_pos hl]

/-- C4 witness: the amended statement for family exp at λ = 1. -/
theorem C4_witness :
    "exp" ∈ allowedUtilities
    ∧ (MonetaryUtility.init "exp" 1 = Except.ok ⟨"exp", 1⟩ ↔ (0 : ℝ) < 1) :=
  ⟨by decide, C4_amended "exp" 1 (by decide)⟩

/-- C5: for every requested family name, every X and y, and every
0 ≤ λ < 1e-12, the dispatcher selects the mean branch: u = X + y elementwise
and d identically 1. -/
theorem C5_mean_fallback (uname : String) (lmbda y : ℝ) (X : List ℝ)
    (h0 : 0 ≤ lmbda) (h1 : lmbda < 1e-12) :
    utility uname lmbda X y
      = Except.ok ⟨X.map (fun x => x + y), (X.map (fun x => x + y)).map (fun _ => 1)⟩ := by
  simp only [utility, if_neg (not_lt.mpr h0), if_pos h1]
  rw [if_pos (by decide)]

/-- C5 witness: the fallback at λ = 0 with requested family exp2,
X = [1, -2] and y = 3: u = [4, 1], d = [1, 1]. -/
theorem C5_witness :
    (0 : ℝ) ≤ 0 ∧ (0 : ℝ) < 1e-12
    ∧ utility "exp2" 0 [1, -2] 3 = Except.ok ⟨[4, 1], [1, 1]⟩ := by
  refine ⟨le_refl 0, by norm_num, ?_⟩
  rw [C5_mean_fallback "exp2" 0 3 [1, -2] (le_refl 0) (by norm_num)]
  norm_num

/-- C6: for the cvar family with λ at or above the threshold, the dispatcher
returns u = (1+λ)·min(0, gains) - y and d = -(1+λ) where gains < 0, else 0;
in particular a sample with gains g ≥ 0 has u = -y and d = 0. -/
theorem C6_cvar (lmbda y g : ℝ) (X : List ℝ) (h1 : 1e-12 ≤ lmbda) (hg : 0 ≤ g) :
    utility "cvar" lmbda X y
      = Except.ok ⟨(X.map (fun x => x + y)).map (fun g2 => cvarU lmbda y g2),
                   (X.map (fun x => x + y)).map (fun g2 => cvarD lmbda g2)⟩
    ∧ cvarU lmbda y g = -y ∧ cvarD lmbda g = 0 := by
  have hpos : ¬ (lmbda < 0) := not_lt.mpr (le_trans (by norm_num) h1)
  have hnl : ¬ (lmbda < 1e-12) := not_lt.mpr h1
  refine ⟨?_, ?_, ?_⟩
  · simp only [utility, if_neg hpos, if_neg hnl]
    rw [if_neg (by decide)]
    simp only [if_true]
  · simp [cvarU, min_eq_left hg]
  · simp [cvarD, not_lt.mpr hg]

/-- C6 witness: cvar at λ = 1, y = 5, X = [-9, -3] (gains [-4, 2]):
u = [-13, -5], d = [-2, 0]; the sample with gains 2 ≥ 0 has u = -5 = -y and
d = 0. -/
theorem C6_witness :
    (1e-12 : ℝ) ≤ 1 ∧ (0 : ℝ) ≤ 2
    ∧ utility "cvar" 1 [-9, -3] 5 = Except.ok ⟨[-13, -5], [-2, 0]⟩
    ∧ cvarU 1 5 2 = -5 ∧ cvarD 1 2 = 0 := by
  have h := C6_cvar 1 5 2 [-9, -3] (by norm_num) (by norm_num)
  refine ⟨by norm_num, by norm_num, ?_, h.2.1, h.2.2⟩
  rw [h.1]
  norm_num [cvarU, cvarD, min_def]

/-- C7: the quad family is continuous at gains = x0 = 1/λ (both branch
expressions evaluate to 0.5·x0² - y) and the exp2 family is continuous at
gains = 0 (both u branches give -y, both d branches give 1); the first
conjunct records that quadU is exactly the two branches glued at x0. -/
theorem C7_breakpoints (lmbda y g : ℝ) (h : 0 < lmbda) :
    quadU lmbda y g = (if g < 1 / lmbda then quadUBelow lmbda y g else quadUAbove lmbda y)
    ∧ quadUBelow lmbda y (1 / lmbda) = 0.5 * (1 / lmbda) ^ 2 - y
    ∧ quadUAbove lmbda y = 0.5 * (1 / lmbda) ^ 2 - y
    ∧ exp2U1 lmbda y 0 = -y ∧ exp2U2 lmbda y 0 = -y
    ∧ exp2D1 lmbda 0 = 1 ∧ exp2D2 lmbda 0 = 1 := by
  refine ⟨?_, ?_, ?_, ?_, ?_, ?_, ?_⟩
  · unfold quadU quadUBelow quadUAbove
    split <;> ring
  · unfold quadUBelow
    ring
  · unfold quadUAbove
    ring
  · simp [exp2U1, Real.exp_zero]
  · unfold exp2U2
    ring
  · simp [exp2D1, Real.exp_zero]
  · unfold exp2D2
    ring

/-- C7 witness: the breakpoint identities at λ = 1, y = 2, g = 0. -/
theorem C7_witness :
    (0 : ℝ) < 1
    ∧ (quadU 1 2 0 = (if (0 : ℝ) < 1 / 1 then quadUBelow 1 2 0 else quadUAbove 1 2)
       ∧ quadUBelow 1 2 (1 / 1) = 0.5 * (1 / 1) ^ 2 - 2
       ∧ quadUAbove 1 2 = 0.5 * (1 / 1) ^ 2 - 2
       ∧ exp2U1 1 2 0 = -2 ∧ exp2U2 1 2 0 = -2
       ∧ exp2D1 1 0 = 1 ∧ exp2D2 1 0 = 1) :=
  ⟨by norm_num, C7_breakpoints 1 2 0 (by norm_num)⟩

/-- C10: compute faults whenever features_time_0 is omitted or None, because
the mapping check of line 126 runs before the None substitution of line 127;
any actual mapping (the empty one included) passes straight to the body, and
compute agrees everywhere with the variant that has no None fallback, so the
fallback is unreachable. -/
theorem C10_mapping_check (mu : MonetaryUtilityT) (X : List ℝ)
    (m : List (String × List (List ℝ))) (ft0 : Option (List (String × List (List ℝ)))) :
    MonetaryUtility.compute mu X none
        = Except.error ("features_time_0 must be a dictionary type")
    ∧ MonetaryUtility.compute mu X (some m) = computeBody mu X m
    ∧ MonetaryUtility.compute mu X ft0 = MonetaryUtility.computeNoFallback mu X ft0 := by
  refine ⟨rfl, rfl, ?_⟩
  cases ft0 with
  | none => rfl
  | some m2 => rfl

end DeepHedging
